import Mathlib

set_option maxRecDepth 100000

/-!
Shallow embedding of `twscrape/queue_client.py`: the session-rotation and
fault-handling core (`QueueClient`).  Stateful Python methods become pure
functions `ClientState → ClientState × List Effect × α`; externally visible
pool operations and transport closes are recorded as an `Effect` trace.
Time (`utc.ts()`) is passed in as a parameter `now`; the unordered iteration
of a Python `set` of strings is abstracted as a function parameter `f`
constrained by `IsSetToList`.
-/

namespace Twscrape

/-- One entry of the `errors` array of a response body: `x.get("code", -1)`
and `x["message"]` as read by `_check_rep`. -/
structure ApiError where
  code : Int
  message : String
deriving DecidableEq, Repr

/-- Formatting of one error entry in `_check_rep`:
`f'({x.get("code", -1)}) {x["message"]}'`. -/
def fmtError (e : ApiError) : String :=
  "(" ++ toString e.code ++ ") " ++ e.message

/-- A received HTTP response, with the fields `_check_rep` and `req` read:
status code, the two rate-limit headers already parsed to `Int` (default
`-1` when absent), the `errors` array of the JSON body (`none` when the
body has no `errors` key, which includes the JSON-parse-failure case where
`res = \x7b"_raw": rep.text\x7d`), whether `"data" in res and "user" in
res["data"]` holds, and the `__username` attribute `req` attaches. -/
structure Response where
  status_code : Nat
  limit_remaining : Int
  limit_reset : Int
  errors : Option (List ApiError)
  hasDataUser : Bool
  username : String
deriving DecidableEq, Repr

/-- Faithful abstraction of Python `list(set(l))` for a list of strings:
some duplicate-free enumeration of the elements of `l`, in an order the
language does not specify (CPython hash order). -/
def IsSetToList (f : List String → List String) : Prop :=
  ∀ l : List String, (f l).Nodup ∧ ∀ a : String, a ∈ f l ↔ a ∈ l

/-- The `err_msg` computation of `_check_rep`: `"OK"` when the body has no
`errors` key, otherwise `"; ".join(list(set([f'({code}) {message}' ...])))`
with `f` standing for the set-to-list enumeration. -/
def errMsg (f : List String → List String) (errors : Option (List ApiError)) : String :=
  match errors with
  | none => "OK"
  | some es => String.intercalate "; " (f (es.map fmtError))

/-- Python's `hay.startswith(pat)` for strings, as a structural test on the
character lists. -/
def strStarts (hay pat : String) : Bool :=
  pat.data.isPrefixOf hay.data

/-- Python's `pat in hay` on character lists: `pat` occurs at the start or
somewhere in the tail. -/
def listContains (hay pat : List Char) : Bool :=
  pat.isPrefixOf hay ||
    match hay with
    | [] => false
    | _ :: t => listContains t pat

/-- Substring test, modelling Python's `pat in hay` for strings. -/
def strContains (hay pat : String) : Bool :=
  listContains hay.data pat.data

/-- A credentialed account as used here; only `username` is read by this
module (the transport client an account opens is tracked separately in
`ClientState.openClients`). -/
structure Account where
  username : String
deriving DecidableEq, Repr

/-- The `Ctx` class: one Active Session Context, an account together with
its success counter `req_count` (the transport client is tracked in
`ClientState.openClients`). -/
structure Ctx where
  acc : Account
  reqCount : Nat
deriving DecidableEq, Repr

/-- A state-changing call made on the external `AccountsPool`. -/
inductive PoolCall where
  | markInactive (username : String) (msg : Option String)
  | lockUntil (username : String) (queue : String) (resetAt : Int) (count : Nat)
  | unlock (username : String) (queue : String) (count : Nat)
deriving DecidableEq, Repr

/-- Externally observable side effects of the client: closing a session's
transport client (`ctx.clt.aclose()`) and the pool release operations. -/
inductive Effect where
  | closeClient (username : String)
  | pool (c : PoolCall)
deriving DecidableEq, Repr

/-- Modelled from the spec: the external Session Pool interface (spec §6),
which is not part of this repository's source.  `accountsInfo` is the
ordered `accounts_info()` listing restricted to the fields read here
(username, active flag); `accounts` backs `get_account` lookup by username;
`queueSessions` is the sequence of sessions `get_for_queue_or_wait` will
hand out for this queue (empty means no session available, returned as
`none` per spec §4.1). -/
structure PoolState where
  accountsInfo : List (String × Bool)
  accounts : List Account
  queueSessions : List Account
deriving DecidableEq, Repr

/-- The optional external usage-counter store (redis): the global counter
under key `accounts_total_count` and the per-account counters under keys
`account_req_count_<username>`.  Key expiry (24h) is not modelled since no
claim and no code path here reads it back. -/
structure RedisState where
  total : Option Nat
  perAccount : List (String × Nat)
deriving DecidableEq, Repr

/-- The mutable state of a `QueueClient` instance, together with the
external pool and counter-store state it interacts with.  `openClients`
lists the usernames whose transport clients have been opened by
`make_client` and not yet closed by `aclose`. -/
structure ClientState where
  pool : PoolState
  queue : String
  ctx : Option Ctx
  change : Nat
  ave : Bool
  redis : Option RedisState
  openClients : List String
deriving DecidableEq, Repr

/-- `QueueClient._close_ctx(reset_at, inactive, msg)`: no-op when no context
is open; otherwise closes the transport, clears `self.ctx`, and makes
exactly one pool call — `mark_inactive` when `inactive`, else `lock_until`
when `reset_at > 0`, else `unlock` — always carrying the context's
`req_count` where the source does. -/
def close_ctx (s : ClientState) (reset_at : Int) (inactive : Bool) (msg : Option String) :
    ClientState × List Effect :=
  match s.ctx with
  | none => (s, [])
  | some c =>
    let s1 : ClientState :=
      { s with ctx := none, openClients := s.openClients.erase c.acc.username }
    if inactive then
      (s1, [.closeClient c.acc.username, .pool (.markInactive c.acc.username msg)])
    else if reset_at > 0 then
      (s1, [.closeClient c.acc.username,
            .pool (.lockUntil c.acc.username s.queue reset_at c.reqCount)])
    else
      (s1, [.closeClient c.acc.username,
            .pool (.unlock c.acc.username s.queue c.reqCount)])

/-- The pool calls contained in an effect trace. -/
def poolCalls (l : List Effect) : List PoolCall :=
  l.filterMap fun e => match e with | .pool c => some c | .closeClient _ => none

/-- `QueueClient._increment_account_usage`: no-op without a counter store;
initializes the per-account key to 1 or increments it. -/
def incrAccountUsage (r : RedisState) (u : String) : RedisState :=
  match r.perAccount.lookup u with
  | none => { r with perAccount := (u, 1) :: r.perAccount }
  | some n => { r with perAccount := r.perAccount.map fun p => if p.1 = u then (p.1, n + 1) else p }

/-- `QueueClient._increment_account_usage` lifted to the client state. -/
def increment_account_usage (s : ClientState) (u : String) : ClientState :=
  match s.redis with
  | none => s
  | some r => { s with redis := some (incrAccountUsage r u) }

/-- `QueueClient._increment_total_count`: initializes the global key to 1 or
increments it. -/
def incrTotal (r : RedisState) : RedisState :=
  match r.total with
  | none => { r with total := some 1 }
  | some n => { r with total := some (n + 1) }

/-- `QueueClient._increment_total_count` lifted to the client state. -/
def increment_total_count (s : ClientState) : ClientState :=
  match s.redis with
  | none => s
  | some r => { s with redis := some (incrTotal r) }

/-- `QueueClient._get_total_count`: `None` without a counter store or when
the key is absent, else the stored global count. -/
def get_total_count (s : ClientState) : Option Nat :=
  match s.redis with
  | none => none
  | some r => r.total

/-- The loop body of `_get_least_used_account`: iterate over the active
usernames carrying `least_used_account` and `min_usage` (with `none`
standing for the initial `float('inf')`); an account with no recorded usage
is returned immediately, otherwise strictly smaller usage replaces the
current best. -/
def leastUsedLoop (r : RedisState) :
    List String → Option String → Option Nat → Option String
  | [], best, _ => best
  | u :: rest, best, minU =>
    match r.perAccount.lookup u with
    | none => some u
    | some usage =>
      match minU with
      | none => leastUsedLoop r rest (some u) (some usage)
      | some m =>
        if usage < m then leastUsedLoop r rest (some u) (some usage)
        else leastUsedLoop r rest best minU

/-- The usernames of the active accounts, in `accounts_info()` listing
order, as collected by `_get_least_used_account`. -/
def activeUsernames (p : PoolState) : List String :=
  (p.accountsInfo.filter fun a => a.2).map fun a => a.1

/-- `QueueClient._get_least_used_account`: `None` without a counter store,
else the loop over the active usernames. -/
def get_least_used_account (s : ClientState) : Option String :=
  match s.redis with
  | none => none
  | some r => leastUsedLoop r (activeUsernames s.pool) none none

/-- Modelled from the spec: `AccountsPool.get_account` (spec §6
`get_session(id) → Session | None`), a lookup by username; the pool
implementation is not part of this repository's source. -/
def get_account (p : PoolState) (u : String) : Option Account :=
  p.accounts.find? fun a => a.username == u

/-- Modelled from the spec: `AccountsPool.get_for_queue_or_wait` (spec §6
`acquire_for_queue`), handing out the next session available for the queue,
or `none` when there is none; the pool implementation is not part of this
repository's source. -/
def get_for_queue (p : PoolState) : PoolState × Option Account :=
  match p.queueSessions with
  | [] => (p, none)
  | a :: rest => ({ p with queueSessions := rest }, some a)

/-- `QueueClient._change`: pick the least-used account, look it up in the
pool, open a client for it and install a fresh `Ctx` — overwriting
`self.ctx` without closing the previous context or reporting it to the pool
(the effect trace of this function is empty because the source makes no
`aclose` and no pool release call here). -/
def change (s : ClientState) : ClientState × List Effect × Option Ctx :=
  match get_least_used_account s with
  | none => (s, [], none)
  | some u =>
    match get_account s.pool u with
    | none => (s, [], none)
    | some acc =>
      let c : Ctx := ⟨acc, 0⟩
      ({ s with ctx := some c, openClients := s.openClients ++ [acc.username] },
       [], some c)

/-- `QueueClient._org_change`: acquire from the pool's queue-aware acquire
and install a fresh `Ctx` — again overwriting `self.ctx` without closing
the previous context or reporting it (no `aclose`, no pool release call in
the source). -/
def org_change (s : ClientState) : ClientState × List Effect × Option Ctx :=
  let pr := get_for_queue s.pool
  match pr.2 with
  | none => ({ s with pool := pr.1 }, [], none)
  | some acc =>
    let c : Ctx := ⟨acc, 0⟩
    ({ s with pool := pr.1, ctx := some c, openClients := s.openClients ++ [acc.username] },
     [], some c)

/-- `QueueClient._change_acc_usage`: when a total count is present and is a
multiple of `change`, switch via `_change`; otherwise keep the current
context if one is open, else `_change`. -/
def change_acc_usage (s : ClientState) : ClientState × List Effect × Option Ctx :=
  match get_total_count s with
  | some t =>
    if t % s.change = 0 then change s
    else
      match s.ctx with
      | some c => (s, [], some c)
      | none => change s
  | none =>
    match s.ctx with
    | some c => (s, [], some c)
    | none => change s

/-- `QueueClient._get_ctx`: the usage-balanced branch when `ave` is set and
a counter store is configured, else the direct branch, which switches via
`_org_change` when the total count is present and a multiple of `change`
and otherwise keeps the current context (acquiring only when none is
open). -/
def get_ctx (s : ClientState) : ClientState × List Effect × Option Ctx :=
  if s.ave && s.redis.isSome then change_acc_usage s
  else
    match get_total_count s with
    | some t =>
      if t % s.change = 0 then org_change s
      else
        match s.ctx with
        | some c => (s, [], some c)
        | none => org_change s
    | none =>
      match s.ctx with
      | some c => (s, [], some c)
      | none => org_change s

/-- How `_check_rep` terminates: `exit(1)` on the dev signature, raising
`HandledError`, raising `AbortReqError`, or returning `None` so the
response is passed through to the caller. -/
inductive CheckOutcome where
  | devExit
  | handled
  | abort
  | passThrough
deriving DecidableEq, Repr

/-- Modelled from the spec: `httpx.Response.raise_for_status` (an external
library call) does not raise exactly on the 2xx/3xx statuses (spec §4.2
step h treats any remaining non-2xx/3xx status as unhandled). -/
def okStatus (status : Nat) : Bool :=
  decide (200 ≤ status) && decide (status < 400)

/-- The tail of `_check_rep` from the content-not-found check on, reached
with the (possibly rewritten) error message `e`: ignore `_Missing`/
`Authorization` signatures at status 200, ignore any other non-"OK"
message, and otherwise lock for 15 minutes on a failing
`raise_for_status`. -/
def check_rep_tail (now : Int) (s : ClientState) (rep : Response) (e : String) :
    ClientState × List Effect × CheckOutcome :=
  if rep.status_code = 200 ∧ strContains e "_Missing: No status found with that ID" then
    (s, [], .passThrough)
  else if rep.status_code = 200 ∧ strContains e "Authorization" then
    (s, [], .passThrough)
  else if e ≠ "OK" then
    (s, [], .passThrough)
  else if okStatus rep.status_code then
    (s, [], .passThrough)
  else
    let pr := close_ctx s (now + 60 * 15) false none
    (pr.1, pr.2, .handled)

/-- `QueueClient._check_rep`: the response classifier, checks applied in
source order — dev signature `(336)`, general rate limit, the three ban
signatures, the 403-with-"OK" heuristic, the `(131)` dependency error
(rewritten to "OK" when status 200 and the payload carries `data.user`),
then the tail checks. -/
def check_rep (f : List String → List String) (now : Int) (s : ClientState) (rep : Response) :
    ClientState × List Effect × CheckOutcome :=
  let e := errMsg f rep.errors
  if strStarts e "(336) The following features cannot be null" then
    (s, [], .devExit)
  else if rep.limit_remaining = 0 ∧ rep.limit_reset > 0 then
    let pr := close_ctx s rep.limit_reset false none
    (pr.1, pr.2, .handled)
  else if strStarts e "(88) Rate limit exceeded" ∧ rep.limit_remaining > 0 then
    let pr := close_ctx s (-1) true (some e)
    (pr.1, pr.2, .handled)
  else if strStarts e "(326) Authorization: Denied by access control" then
    let pr := close_ctx s (-1) true (some e)
    (pr.1, pr.2, .handled)
  else if strStarts e "(32) Could not authenticate you" then
    let pr := close_ctx s (-1) true none
    (pr.1, pr.2, .handled)
  else if e = "OK" ∧ rep.status_code = 403 then
    let pr := close_ctx s (-1) true none
    (pr.1, pr.2, .handled)
  else if strStarts e "(131) Dependency: Internal error" then
    if rep.status_code = 200 ∧ rep.hasDataUser then
      check_rep_tail now s rep "OK"
    else
      (s, [], .abort)
  else
    check_rep_tail now s rep e

/-- The outcome of one transport call `ctx.clt.request(...)` as seen by the
`except` clauses of `req`: a response, or one of the caught exception
classes (`httpx.ReadTimeout`/`httpx.ProxyError` merged per their shared
clause is kept split for precision, `httpx.ConnectError`/
`httpx.ConnectTimeout` merged as `connectFail`, any other exception as
`unknownErr`). -/
inductive AttemptResult where
  | resp (r : Response)
  | readTimeout
  | proxyError
  | connectFail
  | unknownErr
deriving DecidableEq, Repr

/-- How one invocation of `req` ends: returning a response, returning
`None` because no session was available or because the request was aborted,
re-raising a connect failure, process exit on the dev signature, or —
an artifact of driving the `while True` loop by a finite script — the
script ran out while the loop would continue. -/
inductive ReqResult where
  | ok (r : Response)
  | noSession
  | aborted
  | connectRaise
  | devExit
  | pending
deriving DecidableEq, Repr

/-- The result of running `req`: final state, accumulated effect trace, how
the invocation ended, and the final values of the two local retry
counters. -/
structure ReqOut where
  state : ClientState
  effects : List Effect
  result : ReqResult
  unknownRetry : Nat
  connectionRetry : Nat
deriving DecidableEq, Repr

/-- The `while True` loop of `QueueClient.req`, driven by a finite script of
transport outcomes (one consumed per attempt).  Each iteration obtains a
context, issues the attempt, classifies, and acts exactly as the source's
`try`/`except` ladder: success bumps the context's `req_count` and both
usage counters and resets the local retry counters before returning;
`HandledError` and `ReadTimeout`/`ProxyError` just continue the loop;
connect failures raise at the third consecutive occurrence; unknown errors
lock the session for 15 minutes at the third occurrence and keep looping.
On success the source mutates the local `ctx` object, which on every
pass-through path is the same object as `self.ctx`. -/
def reqLoop (f : List String → List String) (now : Int) :
    ClientState → List AttemptResult → Nat → Nat → ReqOut
  | s, script, unknownR, connR =>
    let g := get_ctx s
    match g.2.2 with
    | none => ⟨g.1, g.2.1, .noSession, unknownR, connR⟩
    | some c =>
      match script with
      | [] => ⟨g.1, g.2.1, .pending, unknownR, connR⟩
      | a :: rest =>
        match a with
        | .resp r0 =>
          let r := { r0 with username := c.acc.username }
          let ch := check_rep f now g.1 r
          match ch.2.2 with
          | .devExit => ⟨ch.1, g.2.1 ++ ch.2.1, .devExit, unknownR, connR⟩
          | .abort => ⟨ch.1, g.2.1 ++ ch.2.1, .aborted, unknownR, connR⟩
          | .handled =>
            let o := reqLoop f now ch.1 rest unknownR connR
            ⟨o.state, g.2.1 ++ ch.2.1 ++ o.effects, o.result, o.unknownRetry, o.connectionRetry⟩
          | .passThrough =>
            let s2 := { ch.1 with ctx := some { c with reqCount := c.reqCount + 1 } }
            let s3 := increment_account_usage s2 c.acc.username
            let s4 := increment_total_count s3
            ⟨s4, g.2.1 ++ ch.2.1, .ok r, 0, 0⟩
        | .readTimeout =>
          let o := reqLoop f now g.1 rest unknownR connR
          ⟨o.state, g.2.1 ++ o.effects, o.result, o.unknownRetry, o.connectionRetry⟩
        | .proxyError =>
          let o := reqLoop f now g.1 rest unknownR connR
          ⟨o.state, g.2.1 ++ o.effects, o.result, o.unknownRetry, o.connectionRetry⟩
        | .connectFail =>
          if connR + 1 ≥ 3 then
            ⟨g.1, g.2.1, .connectRaise, unknownR, connR + 1⟩
          else
            let o := reqLoop f now g.1 rest unknownR (connR + 1)
            ⟨o.state, g.2.1 ++ o.effects, o.result, o.unknownRetry, o.connectionRetry⟩
        | .unknownErr =>
          if unknownR + 1 ≥ 3 then
            let pr := close_ctx g.1 (now + 60 * 15) false none
            let o := reqLoop f now pr.1 rest (unknownR + 1) connR
            ⟨o.state, g.2.1 ++ pr.2 ++ o.effects, o.result, o.unknownRetry, o.connectionRetry⟩
          else
            let o := reqLoop f now g.1 rest (unknownR + 1) connR
            ⟨o.state, g.2.1 ++ o.effects, o.result, o.unknownRetry, o.connectionRetry⟩

/-- `QueueClient.req`: one invocation, with both local retry counters
initialized to zero. -/
def req (f : List String → List String) (now : Int)
    (s : ClientState) (script : List AttemptResult) : ReqOut :=
  reqLoop f now s script 0 0

/-! Concrete instances used to evaluate the model on the scenarios the
claims talk about. -/

/-- A pool with two active accounts `A` and `B` and nothing queued. -/
def poolAB : PoolState :=
  { accountsInfo := [("A", true), ("B", true)],
    accounts := [⟨"A"⟩, ⟨"B"⟩], queueSessions := [] }

/-- A counter store that has seen 7 requests in total, 5 on `A` and 10 on
`B`. -/
def redisAB : RedisState := { total := some 7, perAccount := [("A", 5), ("B", 10)] }

/-- A usage-balanced client currently holding `A` with 2 accrued successes,
rotation threshold 15. -/
def sAve : ClientState :=
  { pool := poolAB, queue := "q", ctx := some ⟨⟨"A"⟩, 2⟩, change := 15,
    ave := true, redis := some redisAB, openClients := ["A"] }

/-- A rate-limited response: `x-rate-limit-remaining: 0`,
`x-rate-limit-reset: 100`, no body errors. -/
def rlResp : Response :=
  { status_code := 429, limit_remaining := 0, limit_reset := 100,
    errors := none, hasDataUser := false, username := "" }

/-- A plain successful response: status 200, quota left, no body errors. -/
def okResp : Response :=
  { status_code := 200, limit_remaining := 50, limit_reset := 200,
    errors := none, hasDataUser := false, username := "" }

/-- A teapot response carrying an unrecognized API error message. -/
def r418 : Response :=
  { status_code := 418, limit_remaining := -1, limit_reset := -1,
    errors := some [⟨777, "weird"⟩], hasDataUser := false, username := "" }

/-- A server-error response with no body errors (message "OK"). -/
def r500 : Response :=
  { status_code := 500, limit_remaining := -1, limit_reset := -1,
    errors := none, hasDataUser := false, username := "" }

/-- A failing response carrying the `(131)` dependency-error signature and
no partial-result payload. -/
def r131 : Response :=
  { status_code := 500, limit_remaining := -1, limit_reset := -1,
    errors := some [⟨131, "Dependency: Internal error."⟩],
    hasDataUser := false, username := "" }

/-- A direct-rotation client with no counter store, threshold 1, holding
`A`, with `B` waiting in the pool's queue. -/
def sDirectNoStore : ClientState :=
  { pool := { poolAB with queueSessions := [⟨"B"⟩] },
    queue := "q", ctx := some ⟨⟨"A"⟩, 3⟩, change := 1,
    ave := false, redis := none, openClients := ["A"] }

/-- A direct-rotation client with a counter store whose total count (15)
has just reached the rotation threshold (15), holding `A`, with `B` waiting
in the pool's queue. -/
def sDirectAtThreshold : ClientState :=
  { pool := { poolAB with queueSessions := [⟨"B"⟩] },
    queue := "q", ctx := some ⟨⟨"A"⟩, 3⟩, change := 15,
    ave := false, redis := some { total := some 15, perAccount := [] },
    openClients := ["A"] }

/-- A usage-balanced client whose pool lists active accounts `A`, `B`, `C`
with recorded usage 5 and 2 for `A` and `B` and none for `C`. -/
def sUsageABC : ClientState :=
  { pool := { accountsInfo := [("A", true), ("B", true), ("C", true)],
              accounts := [⟨"A"⟩, ⟨"B"⟩, ⟨"C"⟩], queueSessions := [] },
    queue := "q", ctx := none, change := 15, ave := true,
    redis := some { total := some 1, perAccount := [("A", 5), ("B", 2)] },
    openClients := [] }

/-- The same client with only `A` and `B` in the active listing. -/
def sUsageAB : ClientState :=
  { sUsageABC with
    pool := { sUsageABC.pool with accountsInfo := [("A", true), ("B", true)] } }

/-! Specification-side selection function, written from the claim's words,
to be compared with `get_least_used_account` (refinement for C7). -/

/-- The usage count the claim compares by (only applied to accounts with a
recorded usage, where the default never fires). -/
def usageOf (r : RedisState) (u : String) : Nat :=
  (r.perAccount.lookup u).getD 0

/-- One step of the spec-side minimum fold: keep the current best unless
the new session's usage is strictly smaller (first-seen tie-break). -/
def minStep (r : RedisState) (best : Option String) (u : String) : Option String :=
  match best with
  | none => some u
  | some b => if usageOf r u < usageOf r b then some u else some b

/-- Spec-side: the session with the smallest tracked usage count, ties
broken by first-seen order. -/
def minByUsage (r : RedisState) (accounts : List String) : Option String :=
  accounts.foldl (minStep r) none

/-- Spec-side selection, following the claim's words: the first never-used
session in listing order if any exists, otherwise the least-used session
with first-seen tie-break. -/
def selectSpecLeastUsed (r : RedisState) (accounts : List String) : Option String :=
  match accounts.find? (fun u => (r.perAccount.lookup u).isNone) with
  | some u => some u
  | none => minByUsage r accounts

/-! Theorems. -/

/-- `List.dedup` is one admissible enumeration of a Python set. -/
theorem dedup_setToList : IsSetToList List.dedup :=
  fun l => ⟨l.nodup_dedup, fun _ => l.mem_dedup⟩

/-- In usage-balanced mode with a total count that is not at the rotation
threshold, `_get_ctx` keeps the open context and changes nothing. -/
theorem get_ctx_keeps_ctx (s : ClientState) (r : RedisState) (t : Nat) (c : Ctx)
    (hav : s.ave = true) (hr : s.redis = some r) (ht : r.total = some t)
    (hmod : ¬t % s.change = 0) (hctx : s.ctx = some c) :
    get_ctx s = (s, [], some c) := by
  simp [get_ctx, hav, hr, change_acc_usage, get_total_count, ht, hmod, hctx]

/-- C10: `_close_ctx` makes at most one pool report, is a no-op when no
context is open, and otherwise closes the transport, clears the context and
makes exactly one pool call chosen by the fixed precedence: mark-inactive
when requested (even when a positive reset timestamp is also supplied),
else lock-until when `reset_at > 0`, else a normal unlock carrying the
accrued success count. -/
theorem close_ctx_single_report (s : ClientState) (r : Int) (i : Bool) (m : Option String) :
    (poolCalls (close_ctx s r i m).2).length ≤ 1 ∧
    (s.ctx = none → close_ctx s r i m = (s, [])) ∧
    ∀ c, s.ctx = some c →
      (close_ctx s r i m).1 =
        { s with ctx := none, openClients := s.openClients.erase c.acc.username } ∧
      (close_ctx s r i m).2 =
        [Effect.closeClient c.acc.username,
         Effect.pool
           (if i then PoolCall.markInactive c.acc.username m
            else if r > 0 then PoolCall.lockUntil c.acc.username s.queue r c.reqCount
            else PoolCall.unlock c.acc.username s.queue c.reqCount)] := by
  refine ⟨?_, ?_, ?_⟩
  · unfold close_ctx
    cases s.ctx with
    | none => simp [poolCalls]
    | some c =>
      by_cases hi : i = true <;> by_cases hr : r > 0 <;> simp [hi, hr, poolCalls]
  · intro h
    simp [close_ctx, h]
  · intro c h
    by_cases hi : i = true <;> by_cases hr : r > 0 <;> simp [close_ctx, h, hi, hr]

/-- C10 witness: with a context open on `A` and both `inactive` and a
positive reset supplied, mark-inactive wins and is the single report. -/
theorem close_ctx_single_report_witness :
    (poolCalls (close_ctx sAve 100 true (some "why")).2).length ≤ 1 ∧
    (close_ctx sAve 100 true (some "why")).2 =
      [Effect.closeClient "A", Effect.pool (PoolCall.markInactive "A" (some "why"))] := by
  have h := close_ctx_single_report sAve 100 true (some "why")
  exact ⟨h.1, ((h.2.2 ⟨⟨"A"⟩, 2⟩ rfl).2).trans (by decide)⟩

/-- C1 (amended): for every response with `x-rate-limit-remaining = 0` and
`x-rate-limit-reset > 0` that does not carry the dev `(336)` signature, the
classifier — before any ban-signature check, since no hypothesis about the
error message beyond the `(336)` guard is needed — closes the transport and
releases the session by `lock_until` the reset timestamp with the accrued
success count, does not mark it inactive, and raises the handled signal
that sends the loop back to session selection. -/
theorem rateLimit_releases_session_lock_until
    (f : List String → List String) (now : Int) (s : ClientState) (rep : Response) (c : Ctx)
    (hctx : s.ctx = some c)
    (h336 : strStarts (errMsg f rep.errors)
      "(336) The following features cannot be null" = false)
    (hrem : rep.limit_remaining = 0) (hres : 0 < rep.limit_reset) :
    check_rep f now s rep =
      ({ s with ctx := none, openClients := s.openClients.erase c.acc.username },
       [Effect.closeClient c.acc.username,
        Effect.pool (PoolCall.lockUntil c.acc.username s.queue rep.limit_reset c.reqCount)],
       CheckOutcome.handled) := by
  unfold check_rep
  simp [h336, hrem, hres, close_ctx, hctx]

/-- C1 witness: the rate-limited response on the usage-balanced client
holding `A` with 2 successes is released by `lock_until("A", "q", 100, 2)`. -/
theorem rateLimit_releases_session_lock_until_witness :
    check_rep List.dedup 0 sAve rlResp =
      ({ sAve with ctx := none, openClients := sAve.openClients.erase "A" },
       [Effect.closeClient "A", Effect.pool (PoolCall.lockUntil "A" sAve.queue 100 2)],
       CheckOutcome.handled) :=
  rateLimit_releases_session_lock_until List.dedup 0 sAve rlResp ⟨⟨"A"⟩, 2⟩ rfl rfl rfl
    (by decide)

/-- C1 counterexample: after the rate-limit release of session `A`
(`lock_until("A","q",100,2)` is in the trace), the next attempt of the same
invocation runs on session `A` again — usage-balanced selection consults
only the active listing and the usage counters, not the lock — so the
claim's "the next attempt uses a different session" is false. -/
theorem rateLimit_next_attempt_may_reuse_session :
    (req List.dedup 0 sAve [.resp rlResp, .resp okResp]).effects =
      [Effect.closeClient "A", Effect.pool (PoolCall.lockUntil "A" "q" 100 2)] ∧
    (req List.dedup 0 sAve [.resp rlResp, .resp okResp]).result =
      ReqResult.ok { okResp with username := "A" } := by
  exact ⟨by decide, by decide⟩

/-- C2: rotating away from the open context on `A` at the every-N switch
(total count 15, threshold 15) installs a fresh context on `B` but emits no
transport close and no pool report for `A`: `A`'s client is still open
alongside `B`'s, so the old Active Session Context is leaked, not
destroyed — the code contradicts the documented lifecycle. -/
theorem rotation_leaks_previous_context :
    sDirectAtThreshold.ctx = some ⟨⟨"A"⟩, 3⟩ ∧
    get_ctx sDirectAtThreshold =
      ({ sDirectAtThreshold with
           pool := { sDirectAtThreshold.pool with queueSessions := [] },
           ctx := some ⟨⟨"B"⟩, 0⟩,
           openClients := ["A", "B"] },
       [], some ⟨⟨"B"⟩, 0⟩) := by
  exact ⟨rfl, by decide⟩

/-- C3 (amended): a response matched by none of the earlier classifier
rules is tolerated (passed through, no release) whenever its error message
is not "OK", regardless of status code; only a message-"OK" response whose
status fails the 2xx/3xx check is classified unhandled, releasing the
session locked for exactly 15 minutes. -/
theorem final_rules_unhandled_status
    (f : List String → List String) (now : Int) (s : ClientState) (rep : Response) (c : Ctx)
    (hctx : s.ctx = some c) (hnow : 0 ≤ now)
    (h336 : strStarts (errMsg f rep.errors)
      "(336) The following features cannot be null" = false)
    (hrl : ¬(rep.limit_remaining = 0 ∧ rep.limit_reset > 0))
    (h88 : ¬(strStarts (errMsg f rep.errors) "(88) Rate limit exceeded" = true ∧
      rep.limit_remaining > 0))
    (h326 : strStarts (errMsg f rep.errors)
      "(326) Authorization: Denied by access control" = false)
    (h32 : strStarts (errMsg f rep.errors) "(32) Could not authenticate you" = false)
    (h403 : ¬(errMsg f rep.errors = "OK" ∧ rep.status_code = 403))
    (h131 : strStarts (errMsg f rep.errors) "(131) Dependency: Internal error" = false)
    (hMissing : ¬(rep.status_code = 200 ∧
      strContains (errMsg f rep.errors) "_Missing: No status found with that ID" = true))
    (hAuth : ¬(rep.status_code = 200 ∧
      strContains (errMsg f rep.errors) "Authorization" = true)) :
    (errMsg f rep.errors ≠ "OK" → check_rep f now s rep = (s, [], .passThrough)) ∧
    (errMsg f rep.errors = "OK" → okStatus rep.status_code = false →
      check_rep f now s rep =
        ({ s with ctx := none, openClients := s.openClients.erase c.acc.username },
         [Effect.closeClient c.acc.username,
          Effect.pool (PoolCall.lockUntil c.acc.username s.queue (now + 60 * 15) c.reqCount)],
         CheckOutcome.handled)) := by
  constructor
  · intro hne
    simp [check_rep, check_rep_tail, h336, hrl, h88, h326, h32, h403, h131, hMissing, hAuth, hne]
  · intro he hst
    have hpos : (0 : Int) < now + 900 := by omega
    have h403' : ¬rep.status_code = 403 := fun h => h403 ⟨he, h⟩
    simp +decide [check_rep, check_rep_tail, h336, hrl, h88, h326, h32, h403', h131,
      hMissing, hAuth, he, hst, close_ctx, hctx, hpos]

/-- C3 witness: a 500 response with no reported errors (message "OK"), with
a context open on `A`, is classified unhandled and `A` is locked until
`now + 900`. -/
theorem final_rules_unhandled_status_witness :
    check_rep List.dedup 7 sAve r500 =
      ({ sAve with ctx := none, openClients := sAve.openClients.erase "A" },
       [Effect.closeClient "A",
        Effect.pool (PoolCall.lockUntil "A" sAve.queue (7 + 60 * 15) 2)],
       CheckOutcome.handled) :=
  (final_rules_unhandled_status List.dedup 7 sAve r500 ⟨⟨"A"⟩, 2⟩ rfl (by decide)
    (by decide) (by decide) (by decide) (by decide) (by decide) (by decide) (by decide)
    (by decide) (by decide)).2 rfl (by decide)

/-- C3 counterexample: a 418 response carrying the unknown error message
"(777) weird" reaches the final rules yet is tolerated as Ok — passed
through with no effects and no 15-minute lock — so the claim that a
non-2xx/3xx response with a non-"OK" message is classified UnhandledStatus
is false. -/
theorem non_ok_message_tolerated_at_any_status :
    okStatus r418.status_code = false ∧
    errMsg List.dedup r418.errors ≠ "OK" ∧
    check_rep List.dedup 0 sAve r418 = (sAve, [], .passThrough) := by
  exact ⟨by decide, by decide, by decide⟩

/-- C8 counterexample: with no usage-counter store configured and the
switch threshold set to 1 — so the claim demands a fresh acquisition on
every request — the orchestrator keeps session `A` for request after
request: both consecutive successful requests run on `A` and the pool's
queue (holding `B`) is never consulted. -/
theorem no_counter_store_never_switches :
    sDirectNoStore.change = 1 ∧ sDirectNoStore.redis = none ∧
    (req List.dedup 0 sDirectNoStore [.resp okResp]).result =
      ReqResult.ok { okResp with username := "A" } ∧
    (req List.dedup 0 (req List.dedup 0 sDirectNoStore [.resp okResp]).state
        [.resp okResp]).result = ReqResult.ok { okResp with username := "A" } ∧
    (req List.dedup 0 (req List.dedup 0 sDirectNoStore [.resp okResp]).state
        [.resp okResp]).state.pool.queueSessions = [⟨"B"⟩] := by
  exact ⟨rfl, rfl, by decide, by decide, by decide⟩

/-- C8 (amended): under the direct strategy, the every-N switch fires only
when the usage-counter store supplies a total count: at a multiple of
`change` the orchestrator acquires a fresh session from the pool's
queue-aware acquire, otherwise — and always when no counter store is
configured, since the total count is then absent — it keeps the current
session, acquiring only when none is open. -/
theorem direct_rotation_behavior (s : ClientState)
    (hmode : (s.ave && s.redis.isSome) = false) :
    (∀ t, get_total_count s = some t → t % s.change = 0 → get_ctx s = org_change s) ∧
    (∀ t c, get_total_count s = some t → ¬t % s.change = 0 → s.ctx = some c →
      get_ctx s = (s, [], some c)) ∧
    (∀ c, get_total_count s = none → s.ctx = some c → get_ctx s = (s, [], some c)) ∧
    (get_total_count s = none → s.ctx = none → get_ctx s = org_change s) ∧
    (s.redis = none → get_total_count s = none) ∧
    (∀ acc rest, s.pool.queueSessions = acc :: rest →
      (org_change s).2.2 = some ⟨acc, 0⟩ ∧ (org_change s).1.ctx = some ⟨acc, 0⟩) := by
  refine ⟨?_, ?_, ?_, ?_, ?_, ?_⟩
  · intro t ht hmod
    simp [get_ctx, hmode, ht, hmod]
  · intro t c ht hmod hc
    simp [get_ctx, hmode, ht, hmod, hc]
  · intro c ht hc
    simp [get_ctx, hmode, ht, hc]
  · intro ht hc
    simp [get_ctx, hmode, ht, hc]
  · intro h
    simp [get_total_count, h]
  · intro acc rest h
    simp [org_change, get_for_queue, h]

/-- C8 witness: at total count 15 with threshold 15 the direct client
switches via the queue-aware acquire, receiving `B` from the queue. -/
theorem direct_rotation_behavior_witness :
    get_ctx sDirectAtThreshold = org_change sDirectAtThreshold ∧
    (org_change sDirectAtThreshold).2.2 = some ⟨⟨"B"⟩, 0⟩ := by
  have h := direct_rotation_behavior sDirectAtThreshold rfl
  exact ⟨h.1 15 rfl rfl, (h.2.2.2.2.2 ⟨"B"⟩ [] rfl).1⟩

/-- When an account with no recorded usage occurs in the list, the source
loop returns the first such account, whatever the accumulators hold. -/
theorem leastUsedLoop_first_unused (r : RedisState) :
    ∀ (l : List String) (w : String), l.find? (fun u => (r.perAccount.lookup u).isNone) = some w →
      ∀ best minU, leastUsedLoop r l best minU = some w := by
  intro l
  induction l with
  | nil => intro w hw; simp at hw
  | cons u rest ih =>
    intro w hw best minU
    cases hu : r.perAccount.lookup u with
    | none =>
      rw [List.find?_cons_of_pos _ (by simp [hu])] at hw
      cases hw
      simp [leastUsedLoop, hu]
    | some n =>
      rw [List.find?_cons_of_neg _ (by simp [hu])] at hw
      cases minU with
      | none => simpa [leastUsedLoop, hu] using ih w hw _ _
      | some m =>
        by_cases hlt : n < m <;> simpa [leastUsedLoop, hu, hlt] using ih w hw _ _

/-- When every listed account has a recorded usage, the source loop started
on a best-so-far agrees with the spec-side minimum fold. -/
theorem leastUsedLoop_all_used (r : RedisState) :
    ∀ (l : List String) (b : String), (∀ u ∈ l, (r.perAccount.lookup u).isSome) →
      leastUsedLoop r l (some b) (some (usageOf r b)) = l.foldl (minStep r) (some b) := by
  intro l
  induction l with
  | nil => intro b _; simp [leastUsedLoop]
  | cons u rest ih =>
    intro b hall
    obtain ⟨n, hn⟩ := Option.isSome_iff_exists.mp (hall u (by simp))
    have hun : usageOf r u = n := by simp [usageOf, hn]
    have hrest : ∀ v ∈ rest, (r.perAccount.lookup v).isSome :=
      fun v hv => hall v (by simp [hv])
    by_cases hlt : n < usageOf r b
    · rw [List.foldl_cons]
      have : minStep r (some b) u = some u := by simp [minStep, hun, hlt]
      rw [this, leastUsedLoop, hn]
      simp only [hun ▸ (ih u hrest), if_pos hlt]
    · rw [List.foldl_cons]
      have hm : minStep r (some b) u = some b := by simp [minStep, hun, hlt]
      rw [hm, leastUsedLoop, hn]
      simp only [ih b hrest]
      rw [if_neg hlt]

/-- C7: `_get_least_used_account` refines the spec-side selection — among
the active sessions in listing order it returns the first never-used
session if one exists, else the session with the smallest tracked usage
count with ties broken by first-seen order; in particular it selects `C`
from `[A:5, B:2, C:unused]` and `B` from `[A:5, B:2]`. -/
theorem least_used_selection (s : ClientState) (r : RedisState) (h : s.redis = some r) :
    get_least_used_account s = selectSpecLeastUsed r (activeUsernames s.pool) ∧
    get_least_used_account sUsageABC = some "C" ∧
    get_least_used_account sUsageAB = some "B" := by
  refine ⟨?_, by decide, by decide⟩
  rw [get_least_used_account, h]
  generalize activeUsernames s.pool = l
  rw [selectSpecLeastUsed]
  cases hf : l.find? (fun u => (r.perAccount.lookup u).isNone) with
  | some w => exact leastUsedLoop_first_unused r l w hf none none
  | none =>
    have hall : ∀ u ∈ l, (r.perAccount.lookup u).isSome := by
      intro u hu
      have := List.find?_eq_none.mp hf u hu
      simpa [Option.isNone_iff_eq_none, Option.isSome_iff_ne_none] using this
    cases l with
    | nil => simp [leastUsedLoop, minByUsage]
    | cons u rest =>
      obtain ⟨n, hn⟩ := Option.isSome_iff_exists.mp (hall u (by simp))
      have hun : usageOf r u = n := by simp [usageOf, hn]
      simp only [leastUsedLoop, hn, minByUsage, List.foldl_cons]
      have hstep : minStep r none u = some u := by simp [minStep]
      rw [hstep, ← hun, leastUsedLoop_all_used r rest u (fun v hv => hall v (by simp [hv]))]

/-- C7 witness: the refinement instantiated on the `[A:5, B:2, C:unused]`
client, whose spec-side selection also computes `C`. -/
theorem least_used_selection_witness :
    get_least_used_account sUsageABC =
      selectSpecLeastUsed ⟨some 1, [("A", 5), ("B", 2)]⟩ (activeUsernames sUsageABC.pool) ∧
    selectSpecLeastUsed ⟨some 1, [("A", 5), ("B", 2)]⟩ (activeUsernames sUsageABC.pool) =
      some "C" := by
  exact ⟨(least_used_selection sUsageABC ⟨some 1, [("A", 5), ("B", 2)]⟩ rfl).1, by decide⟩

/-- The join accumulator only ever grows to the right. -/
theorem intercalate_go_data (sep : String) :
    ∀ (xs : List String) (acc : String),
      ∃ t, (String.intercalate.go acc sep xs).data = acc.data ++ t := by
  intro xs
  induction xs with
  | nil => intro acc; exact ⟨[], by simp [String.intercalate.go]⟩
  | cons a as ih =>
    intro acc
    obtain ⟨t, ht⟩ := ih (acc ++ sep ++ a)
    refine ⟨sep.data ++ a.data ++ t, ?_⟩
    rw [String.intercalate.go, ht]
    simp

/-- The join of a nonempty list of strings starts with its first element. -/
theorem intercalate_cons_starts (sep x : String) (xs : List String) :
    ∃ t, (String.intercalate sep (x :: xs)).data = x.data ++ t := by
  simpa [String.intercalate] using intercalate_go_data sep xs x

/-- C9 (amended): the classifier's message is the join of a deduplicated
enumeration of the formatted error entries — a set, so no particular order
is promised — and it equals the sentinel "OK" exactly when the body has no
`errors` key at all (a present-but-empty `errors` array yields the empty
string instead). -/
theorem error_message_characterization (f : List String → List String)
    (hf : IsSetToList f) :
    (∀ errors, errMsg f errors = "OK" ↔ errors = none) ∧
    ∀ es, (f (es.map fmtError)).Nodup ∧
      (∀ a, a ∈ f (es.map fmtError) ↔ ∃ e0 ∈ es, fmtError e0 = a) ∧
      errMsg f (some es) = String.intercalate "; " (f (es.map fmtError)) := by
  constructor
  · intro errors
    constructor
    · intro h
      cases errors with
      | none => rfl
      | some es =>
        exfalso
        cases hfl : f (es.map fmtError) with
        | nil =>
          rw [errMsg, hfl] at h
          exact absurd h (by decide)
        | cons x xs =>
          have hx : x ∈ f (es.map fmtError) := by rw [hfl]; exact List.mem_cons_self x xs
          obtain ⟨e0, _, hfe⟩ := List.mem_map.mp (((hf _).2 x).mp hx)
          have hxd : x.data = '(' :: ((toString e0.code).data ++ (") ").data ++ e0.message.data) := by
            rw [← hfe]
            simp [fmtError]
          obtain ⟨t2, ht2⟩ := intercalate_cons_starts "; " x xs
          rw [errMsg, hfl] at h
          have hd := congrArg String.data h
          rw [ht2, hxd] at hd
          simp at hd
    · intro h
      subst h
      rfl
  · intro es
    exact ⟨(hf _).1, fun a => ((hf _).2 a).trans List.mem_map, rfl⟩

/-- C9 counterexample: a body that carries an `errors` key with zero
entries reports no errors, yet the classifier's message is the empty
string, not the sentinel "OK" — so "message equals 'OK' exactly when the
body reports no errors" is false (and the enumeration of a Python hash set
promises no first-occurrence order either). -/
theorem empty_errors_message_empty :
    errMsg List.dedup (some []) = "" ∧ ("" : String) ≠ "OK" :=
  ⟨rfl, by decide⟩

/-- C9 witness: on a singleton `(131)` error body the message is not "OK",
by the characterization instantiated at the dedup enumeration. -/
theorem error_message_characterization_witness :
    errMsg List.dedup (some [⟨131, "boom"⟩]) = "OK" ↔
      (some [⟨(131 : Int), "boom"⟩] : Option (List ApiError)) = none :=
  (error_message_characterization List.dedup dedup_setToList).1 (some [⟨131, "boom"⟩])

/-- Whenever the loop returns a response, it has just reset both local
retry counters to zero. -/
theorem reqLoop_ok_counters (f : List String → List String) (now : Int) :
    ∀ (script : List AttemptResult) (s : ClientState) (u cr : Nat) (r : Response),
      (reqLoop f now s script u cr).result = .ok r →
      (reqLoop f now s script u cr).unknownRetry = 0 ∧
      (reqLoop f now s script u cr).connectionRetry = 0 := by
  intro script
  induction script with
  | nil =>
    intro s u cr r h
    rw [reqLoop] at h
    revert h
    cases (get_ctx s).2.2 <;> simp
  | cons a rest ih =>
    intro s u cr r
    rw [reqLoop]
    cases hg : (get_ctx s).2.2 with
    | none => simp
    | some ctx =>
      cases a with
      | resp r0 =>
        cases ho : (check_rep f now (get_ctx s).1 { r0 with username := ctx.acc.username }).2.2 with
        | devExit => simp [ho]
        | abort => simp [ho]
        | handled =>
          simp [ho]
          exact fun h => ih _ u cr r h
        | passThrough => simp [ho]
      | readTimeout =>
        simp
        exact fun h => ih _ u cr r h
      | proxyError =>
        simp
        exact fun h => ih _ u cr r h
      | connectFail =>
        by_cases hc : cr + 1 ≥ 3
        · simp [hc]
        · simp [hc]
          exact fun h => ih _ u (cr + 1) r h
      | unknownErr =>
        by_cases hu : u + 1 ≥ 3
        · simp [hu]
          exact fun h => ih _ (u + 1) cr r h
        · simp [hu]
          exact fun h => ih _ (u + 1) cr r h

/-- C4 (amended): every `req` invocation starts its two retry counters at
zero and they are zero again whenever a response is returned (reset on
successful classification); they are not shared across invocations.  (They
are not reset on handled-error rotation — see the counterexample.) -/
theorem counters_zero_on_success (f : List String → List String) (now : Int)
    (s : ClientState) (script : List AttemptResult) (r : Response)
    (h : (req f now s script).result = .ok r) :
    req f now s script = reqLoop f now s script 0 0 ∧
    (req f now s script).unknownRetry = 0 ∧
    (req f now s script).connectionRetry = 0 :=
  ⟨rfl, reqLoop_ok_counters f now script s 0 0 r h⟩

/-- C4 witness: a lone successful attempt returns with both counters
zero. -/
theorem counters_zero_on_success_witness :
    (req List.dedup 0 sAve [.resp okResp]).unknownRetry = 0 ∧
    (req List.dedup 0 sAve [.resp okResp]).connectionRetry = 0 :=
  (counters_zero_on_success List.dedup 0 sAve [.resp okResp]
    { okResp with username := "A" } (by decide)).2

/-- C4 counterexample: two connect failures, then a rate-limit rotation
(the `lock_until("A","q",100,2)` report is in the trace), then a single
further connect failure: the invocation raises the connect error with
`connection_retry = 3`, so the handled-error rotation did not reset the
counter to zero — had it, the final failure would have been the first of a
new run of three. -/
theorem handled_rotation_does_not_reset_counters :
    (req List.dedup 0 sAve
        [.connectFail, .connectFail, .resp rlResp, .connectFail]).result =
      ReqResult.connectRaise ∧
    (req List.dedup 0 sAve
        [.connectFail, .connectFail, .resp rlResp, .connectFail]).connectionRetry = 3 ∧
    Effect.pool (PoolCall.lockUntil "A" "q" 100 2) ∈
      (req List.dedup 0 sAve
        [.connectFail, .connectFail, .resp rlResp, .connectFail]).effects := by
  exact ⟨by decide, by decide, by decide⟩

/-- C5: with a stable context (usage-balanced keep-current selection), 3
consecutive connect failures raise the connect error to the caller — the
only constructor of the loop's result that models an exception escaping —
while 2 consecutive connect failures followed by a successfully classified
response return that response with the connect counter reset to zero. -/
theorem connect_failure_cap (f : List String → List String) (now : Int)
    (s : ClientState) (rd : RedisState) (t : Nat) (c : Ctx)
    (hav : s.ave = true) (hr : s.redis = some rd) (ht : rd.total = some t)
    (hmod : ¬t % s.change = 0) (hctx : s.ctx = some c) :
    (req f now s [.connectFail, .connectFail, .connectFail]).result =
      ReqResult.connectRaise ∧
    ∀ rep, check_rep f now s { rep with username := c.acc.username } =
        (s, [], .passThrough) →
      (req f now s [.connectFail, .connectFail, .resp rep]).result =
        ReqResult.ok { rep with username := c.acc.username } ∧
      (req f now s [.connectFail, .connectFail, .resp rep]).connectionRetry = 0 ∧
      (req f now s [.connectFail, .connectFail, .resp rep]).unknownRetry = 0 := by
  have hkeep := get_ctx_keeps_ctx s rd t c hav hr ht hmod hctx
  constructor
  · simp [req, reqLoop, hkeep]
  · intro rep hcheck
    simp [req, reqLoop, hkeep, hcheck]

/-- C5 witness: on the usage-balanced client holding `A`, three connect
failures raise; two then a success return the response on `A` with both
counters zero. -/
theorem connect_failure_cap_witness :
    (req List.dedup 0 sAve [.connectFail, .connectFail, .connectFail]).result =
      ReqResult.connectRaise ∧
    (req List.dedup 0 sAve [.connectFail, .connectFail, .resp okResp]).result =
      ReqResult.ok { okResp with username := "A" } ∧
    (req List.dedup 0 sAve [.connectFail, .connectFail, .resp okResp]).connectionRetry = 0 := by
  have h := connect_failure_cap List.dedup 0 sAve redisAB 7 ⟨⟨"A"⟩, 2⟩
    rfl rfl rfl (by decide) rfl
  exact ⟨h.1, (h.2 okResp (by decide)).1, (h.2 okResp (by decide)).2.1⟩

/-- C6: a response carrying the `(131) Dependency: Internal error`
signature that reaches the dependency rule without the status-200
partial-result payload is classified abort and `req` returns no result at
once — state unchanged, no release or rotation effects, retry counters
untouched, and the rest of the script never attempted; with status 200 and
the `data.user` payload the same signature is instead rewritten to "OK" and
passed through. -/
theorem dependency_error_aborts (f : List String → List String) (now : Int)
    (s : ClientState) (rd : RedisState) (t : Nat) (c : Ctx) (rep : Response)
    (hav : s.ave = true) (hr : s.redis = some rd) (ht : rd.total = some t)
    (hmod : ¬t % s.change = 0) (hctx : s.ctx = some c)
    (h131 : strStarts (errMsg f rep.errors) "(131) Dependency: Internal error" = true)
    (hrl : ¬(rep.limit_remaining = 0 ∧ rep.limit_reset > 0))
    (h336 : strStarts (errMsg f rep.errors)
      "(336) The following features cannot be null" = false)
    (h88 : ¬(strStarts (errMsg f rep.errors) "(88) Rate limit exceeded" = true ∧
      rep.limit_remaining > 0))
    (h326 : strStarts (errMsg f rep.errors)
      "(326) Authorization: Denied by access control" = false)
    (h32 : strStarts (errMsg f rep.errors) "(32) Could not authenticate you" = false) :
    (¬(rep.status_code = 200 ∧ rep.hasDataUser = true) →
      check_rep f now s rep = (s, [], .abort) ∧
      ∀ rest u cr, reqLoop f now s (.resp rep :: rest) u cr = ⟨s, [], .aborted, u, cr⟩) ∧
    (rep.status_code = 200 → rep.hasDataUser = true →
      check_rep f now s rep = (s, [], .passThrough)) := by
  have hkeep := get_ctx_keeps_ctx s rd t c hav hr ht hmod hctx
  have hne : errMsg f rep.errors ≠ "OK" := by
    intro he
    rw [he] at h131
    exact absurd h131 (by decide)
  have h403 : ¬(errMsg f rep.errors = "OK" ∧ rep.status_code = 403) :=
    fun hh => hne hh.1
  constructor
  · intro hnot
    have key : ∀ x : String, check_rep f now s { rep with username := x } =
        (s, [], .abort) := by
      intro x
      simp [check_rep, h336, hrl, h88, h326, h32, h403, h131, hnot]
    constructor
    · have := key rep.username
      simpa using this
    · intro rest u cr
      rw [reqLoop]
      simp [hkeep, key c.acc.username]
  · intro hst hdu
    simp +decide [check_rep, check_rep_tail, h336, hrl, h88, h326, h32, h403, h131,
      hst, hdu]

/-- C6 witness: the 500-status `(131)` response on the usage-balanced
client is aborted — `req` ends at once with the state untouched, no
effects, counters zero, and the remaining script ignored. -/
theorem dependency_error_aborts_witness :
    check_rep List.dedup 0 sAve r131 = (sAve, [], .abort) ∧
    req List.dedup 0 sAve [.resp r131, .resp okResp] = ⟨sAve, [], .aborted, 0, 0⟩ := by
  have h := dependency_error_aborts List.dedup 0 sAve redisAB 7 ⟨⟨"A"⟩, 2⟩ r131
    rfl rfl rfl (by decide) rfl (by decide) (by decide) (by decide) (by decide)
    (by decide) (by decide)
  exact ⟨(h.1 (by decide)).1, (h.1 (by decide)).2 [.resp okResp] 0 0⟩

end Twscrape
